import Mathlib

/-!
Verification development for the Financial Aggregation & Tax Estimation Engine
of the EMPRESA application (`src/app.py`).

The engine is shallowly embedded: Python floats are modelled as exact
rationals (`ℚ`), Python strings as Lean `String`s manipulated through their
character lists, dictionaries as association lists, and `round(x, n)` as
half-up rounding on `ℚ` (`round_to`).  Python's `round` on binary floats is
round-half-even on the nearest representable double; every concrete value
evaluated in this file is chosen away from representable ties, where the two
rules agree.

Batteries marks the `Rat` arithmetic operations irreducible; they are made
semireducible here so that concrete evaluations can be discharged by `decide`.
-/

attribute [local semireducible] Rat.ofScientific Rat.mul Rat.inv Rat.add Rat.sub

/-- Computable floor of a rational (equal to `Int.floor`, see `qfloor_eq_floor`). -/
def qfloor (q : ℚ) : ℤ := q.num / q.den

/-- Python `round(q, nd)` (half-up model; see the file comment on ties). -/
def round_to (nd : ℕ) (q : ℚ) : ℚ := (qfloor (q * 10 ^ nd + 1/2) : ℚ) / 10 ^ nd

/-- Python `round(q, 2)` — the rounding applied at every publishable boundary. -/
def round2 (q : ℚ) : ℚ := round_to 2 q

/- ── character-list utilities (Python `str` methods) ─────────────────────── -/

/-- Python `str.strip()` on a character list. -/
def stripChars (l : List Char) : List Char :=
  ((l.dropWhile Char.isWhitespace).reverse.dropWhile Char.isWhitespace).reverse

/-- Python `s.split(c, 1)`: split at the first occurrence of `c`; `none` when
`c` does not occur. -/
def splitFirst (c : Char) : List Char → Option (List Char × List Char)
  | [] => none
  | x :: xs =>
    if x = c then some ([], xs)
    else (splitFirst c xs).map (fun p => (x :: p.1, p.2))

/-- Python `s.split(c)` (all occurrences). -/
def splitOnChar (c : Char) : List Char → List (List Char)
  | [] => [[]]
  | x :: xs =>
    let r := splitOnChar c xs
    if x = c then [] :: r
    else
      match r with
      | h :: t => (x :: h) :: t
      | [] => [[x]]

/-- Word character for the regex `\b` boundary (`[A-Za-z0-9_]`; the Python
regex also counts non-ASCII word characters, which never occur adjacent to
`SUB` in the inputs considered here). -/
def isWordChar (c : Char) : Bool := c.isAlphanum || c == '_'

/-- First match of the regex `\bSUB\b` (`re.search(r'\bSUB\b', ...)`): returns
the text before `match.start()` and after `match.end()`, or `none`.  `prev` is
the character immediately before the current scan position. -/
def findSUB (prev : Option Char) : List Char → Option (List Char × List Char)
  | 'S' :: 'U' :: 'B' :: rest =>
    if (match prev with | none => true | some p => !isWordChar p)
        && (match rest with | [] => true | r :: _ => !isWordChar r) then
      some ([], rest)
    else
      (findSUB (some 'S') ('U' :: 'B' :: rest)).map (fun p => ('S' :: p.1, p.2))
  | x :: xs => (findSUB (some x) xs).map (fun p => (x :: p.1, p.2))
  | [] => none

/-- Whether the three-character run `SUB` occurs anywhere (substring test,
ignoring word boundaries). -/
def containsSUB : List Char → Bool
  | 'S' :: 'U' :: 'B' :: _ => true
  | _ :: xs => containsSUB xs
  | [] => false

/- ── parse_event_title (src/app.py lines 75–103) ─────────────────────────── -/

/-- Result of `parse_event_title` (the Python function returns this 4-tuple). -/
structure Parsed where
  artista : String
  evento : String
  «local» : String
  substituto : String
deriving DecidableEq

/-- Source expression: `parse_event_title(summary)`: decompose `"Artista | Evento, Local [SUB
Substituto]"`.  Mirrors src/app.py lines 75–103. -/
def parse_event_title (summary : String) : Parsed :=
  if summary = "" then ⟨"", "", "", ""⟩
  else
    let chars := summary.toList
    -- `if '|' in summary: artista, rest = summary.split('|', 1)` …
    let ar := match splitFirst '|' chars with
      | some p => (stripChars p.1, stripChars p.2)
      | none => (stripChars chars, ([] : List Char))
    -- `if ',' in rest: evento, local_part = rest.split(',', 1)` …
    let el := match splitFirst ',' ar.2 with
      | some p => (stripChars p.1, stripChars p.2)
      | none => (stripChars ar.2, ([] : List Char))
    -- `sub_match = re.search(r'\bSUB\b', local_part)` …
    let ls := match findSUB none el.2 with
      | some p => (stripChars p.1, stripChars p.2)
      | none => (el.2, ([] : List Char))
    ⟨ar.1.asString, el.1.asString, ls.1.asString, ls.2.asString⟩

/- ── _to_float (src/app.py lines 875–881) ────────────────────────────────── -/

/-- Numeric value of a digit run (most significant first). -/
def digitsVal (l : List Char) : ℕ :=
  l.foldl (fun acc c => 10 * acc + (c.toNat - 48)) 0

/-- Python `float(s)` on a plain decimal literal: optional surrounding
whitespace, optional sign, digits with at most one decimal point and at least
one digit.  (Exponents, `inf`/`nan` and `_` separators are not modelled; no
input in this development uses them.) -/
def parseDecimal (l : List Char) : Option ℚ :=
  let l := stripChars l
  let sl : ℚ × List Char := match l with
    | '-' :: t => (-1, t)
    | '+' :: t => (1, t)
    | _ => (1, l)
  match splitFirst '.' sl.2 with
  | some p =>
    if p.1.all Char.isDigit ∧ p.2.all Char.isDigit ∧ 0 < p.1.length + p.2.length then
      some (sl.1 * ((digitsVal p.1 : ℚ) + (digitsVal p.2 : ℚ) / 10 ^ p.2.length))
    else none
  | none =>
    if sl.2.all Char.isDigit ∧ 0 < sl.2.length then some (sl.1 * (digitsVal sl.2 : ℚ))
    else none

/-- Source expression: `_to_float(v)`: `float(str(v).replace(',', '.'))` with `0.0` on failure,
and `0.0` for `None`/`''`.  Mirrors src/app.py lines 875–881. -/
def _to_float (s : String) : ℚ :=
  (parseDecimal (s.toList.map (fun c => if c == ',' then '.' else c))).getD 0

/- ── date parsing (src/app.py lines 213–223 and 956–961) ─────────────────── -/

def isLeap (y : ℕ) : Bool := y % 4 == 0 && (y % 100 != 0 || y % 400 == 0)

def daysInMonth (y m : ℕ) : ℕ :=
  if m = 2 then (if isLeap y then 29 else 28)
  else if m = 4 ∨ m = 6 ∨ m = 9 ∨ m = 11 then 30
  else 31

/-- Validity check performed by the `datetime` constructor. -/
def mkDate (y m d : ℕ) : Option (ℕ × ℕ × ℕ) :=
  if 1 ≤ y ∧ 1 ≤ m ∧ m ≤ 12 ∧ 1 ≤ d ∧ d ≤ daysInMonth y m then some (y, m, d) else none

/-- Source expression: `datetime.strptime(s, '%Y-%m-%d')`: four-digit year, one/two-digit month
and day, full-string match, calendar-valid. -/
def parseYmd (s : String) : Option (ℕ × ℕ × ℕ) :=
  match splitOnChar '-' s.toList with
  | [ys, ms, ds] =>
    if ys.all Char.isDigit ∧ ys.length = 4
        ∧ ms.all Char.isDigit ∧ 1 ≤ ms.length ∧ ms.length ≤ 2
        ∧ ds.all Char.isDigit ∧ 1 ≤ ds.length ∧ ds.length ≤ 2 then
      mkDate (digitsVal ys) (digitsVal ms) (digitsVal ds)
    else none
  | _ => none

/-- ISO date part `YYYY-MM-DD` (zero-padded, as `datetime.fromisoformat`
requires). -/
def parseYmdStrict (l : List Char) : Option (ℕ × ℕ × ℕ) :=
  match splitOnChar '-' l with
  | [ys, ms, ds] =>
    if ys.all Char.isDigit ∧ ys.length = 4
        ∧ ms.all Char.isDigit ∧ ms.length = 2
        ∧ ds.all Char.isDigit ∧ ds.length = 2 then
      mkDate (digitsVal ys) (digitsVal ms) (digitsVal ds)
    else none
  | _ => none

/-- ISO clock part `HH[:MM[:SS[.fff[fff]]]]` (zero-padded two-digit fields);
returns `(hour, minute)`. -/
def parseHms (l : List Char) : Option (ℕ × ℕ) :=
  let two := fun (x : List Char) => x.all Char.isDigit ∧ x.length = 2
  match splitOnChar ':' l with
  | [hs] =>
    if two hs ∧ digitsVal hs ≤ 23 then some (digitsVal hs, 0) else none
  | [hs, ms] =>
    if two hs ∧ digitsVal hs ≤ 23 ∧ two ms ∧ digitsVal ms ≤ 59 then
      some (digitsVal hs, digitsVal ms)
    else none
  | [hs, ms, ss] =>
    let sec := match splitFirst '.' ss with
      | some p => if p.2.all Char.isDigit ∧ (p.2.length = 3 ∨ p.2.length = 6) then some p.1 else none
      | none => some ss
    match sec with
    | some sv =>
      if two hs ∧ digitsVal hs ≤ 23 ∧ two ms ∧ digitsVal ms ≤ 59
          ∧ two sv ∧ digitsVal sv ≤ 59 then
        some (digitsVal hs, digitsVal ms)
      else none
    | none => none
  | _ => none

/-- UTC-offset suffix `HH:MM` of `±HH:MM`. -/
def parseOffset (l : List Char) : Option Unit :=
  match splitOnChar ':' l with
  | [oh, om] =>
    if oh.all Char.isDigit ∧ oh.length = 2 ∧ digitsVal oh ≤ 23
        ∧ om.all Char.isDigit ∧ om.length = 2 ∧ digitsVal om ≤ 59 then
      some ()
    else none
  | _ => none

/-- ISO time-of-day with optional `±HH:MM` offset. -/
def parseIsoTime (l : List Char) : Option (ℕ × ℕ) :=
  match splitFirst '+' l with
  | some p => (parseOffset p.2).bind (fun _ => parseHms p.1)
  | none =>
    match splitFirst '-' l with
    | some p => (parseOffset p.2).bind (fun _ => parseHms p.1)
    | none => parseHms l

/-- The date parse of src/app.py lines 214–221: a value containing `'T'` goes
through `datetime.fromisoformat(start.replace('Z', '+00:00'))`, otherwise
through `strptime('%Y-%m-%d')`.  Returns `(year, month, day, time?)`; `none`
models the `except` branch. -/
def parse_start (start : String) : Option (ℕ × ℕ × ℕ × Option (ℕ × ℕ)) :=
  if start.toList.contains 'T' then
    let l := start.toList.foldr
      (fun c acc => (if c == 'Z' then "+00:00".toList else [c]) ++ acc) []
    match splitFirst 'T' l with
    | some p =>
      match parseYmdStrict p.1, parseIsoTime p.2 with
      | some d, some t => some (d.1, d.2.1, d.2.2, some t)
      | _, _ => none
    | none => none
  else
    (parseYmd start).map (fun d => (d.1, d.2.1, d.2.2, none))

/-- Zero-padded two-digit field of `strftime`. -/
def pad2 (n : ℕ) : String := if n < 10 then "0" ++ toString n else toString n

/-- Zero-padded four-digit year of `strftime('%Y')`. -/
def pad4 (n : ℕ) : String :=
  if n < 10 then "000" ++ toString n
  else if n < 100 then "00" ++ toString n
  else if n < 1000 then "0" ++ toString n
  else toString n

/- ── revenue normalizer (src/app.py lines 201–246) ───────────────────────── -/

/-- One entry of the base event store `concerts_base.json` (immutable sync
snapshot): `{start, summary}`. -/
structure EventBase where
  start : String
  summary : String
deriving DecidableEq

/-- One entry of the override store `concert_data.json`: a partial record
(`none` models an absent key, `some ""` a key stored with the empty string). -/
structure ConcertOverride where
  artista : Option String := none
  evento : Option String := none
  «local» : Option String := none
  substituto : Option String := none
  cachet : Option String := none
deriving DecidableEq

/-- A normalized revenue event, as appended to `concerts_list`. -/
structure Concert where
  id : String
  date : String
  time : String
  year : ℕ
  month : ℕ
  artista : String
  evento : String
  «local» : String
  substituto : String
  cachet : String
  km : Option ℚ
deriving DecidableEq

/-- Source expression: `concert_data.get(event_id, {})`. -/
def lookupOverride (event_id : String) (concert_data : List (String × ConcertOverride)) :
    ConcertOverride :=
  (List.lookup event_id concert_data).getD {}

/-- Loop body of `_build_concerts_from_local` (src/app.py lines 212–244):
normalize one base event against the override store, the artist base-fee
lookup and the distances cache. -/
def normalize_event (event_id : String) (ev : EventBase)
    (concert_data : List (String × ConcertOverride))
    (artist_base : List (String × String))
    (distances : List (String × ℚ)) : Concert :=
  let ps := parse_start ev.start
  -- `date_str = dt.strftime('%d/%m/%Y')` / `except: date_str = start_raw`
  let date_str := match ps with
    | some (y, m, d, _) => pad2 d ++ "/" ++ pad2 m ++ "/" ++ pad4 y
    | none => ev.start
  -- `time_str = dt.strftime('%H:%M') if 'T' in start_raw else ''`
  let time_str := match ps with
    | some (_, _, _, some t) => pad2 t.1 ++ ":" ++ pad2 t.2
    | _ => ""
  let year := match ps with | some (y, _, _, _) => y | none => 0
  let month := match ps with | some (_, m, _, _) => m | none => 0
  let p := parse_event_title ev.summary
  let ov := lookupOverride event_id concert_data
  -- `artista = ov.get('artista', a_p)` … (key-presence, not emptiness)
  let artista := ov.artista.getD p.artista
  let evento := ov.evento.getD p.evento
  let loc := ov.«local».getD p.«local»
  let substituto := ov.substituto.getD p.substituto
  -- `cachet = ov.get('cachet', '') or artist_base.get(artista, '')`
  let cachet0 := if ov.cachet.getD "" ≠ "" then ov.cachet.getD ""
    else (List.lookup artista artist_base).getD ""
  -- `if substituto: cachet = '0'`
  let cachet := if substituto ≠ "" then "0" else cachet0
  -- `km = distances.get(local) if local else None`
  let km := if loc ≠ "" then List.lookup loc distances else none
  { id := event_id, date := date_str, time := time_str, year := year, month := month,
    artista := artista, evento := evento, «local» := loc, substituto := substituto,
    cachet := cachet, km := km }

/-- Source expression: `sorted(..., key=lambda x: x[1].get('start', ''))` comparison. -/
def startLE (a b : String × EventBase) : Prop :=
  a.2.start < b.2.start ∨ a.2.start = b.2.start

instance : DecidableRel startLE := fun a b => by unfold startLE; infer_instance

/-- Source expression: `_build_concerts_from_local` (src/app.py lines 201–246): sort the base
events by start instant, then normalize each one. -/
def _build_concerts_from_local (events : List (String × EventBase))
    (concert_data : List (String × ConcertOverride))
    (artist_base : List (String × String))
    (distances : List (String × ℚ)) : List Concert :=
  (List.insertionSort startLE events).map
    (fun e => normalize_event e.1 e.2 concert_data artist_base distances)

/- ── static category tables (src/app.py lines 795–827) ───────────────────── -/

/-- Source expression: `_IVA_FACTOR.get(cat, 1.0)` — VAT-deductibility factor per category. -/
def _IVA_FACTOR (cat : String) : ℚ :=
  if cat = "Alimentação e Bebidas" then 0
  else if cat = "Alojamento e Hotelaria" then 0
  else if cat = "Combustíveis e Lubrificantes" then 0.5
  else 1

/-- Source expression: `cat in _REPRESENTACAO_CATS`. -/
def _REPRESENTACAO_CATS (cat : String) : Bool :=
  cat == "Alimentação e Bebidas" || cat == "Alojamento e Hotelaria"

/-- 10% autonomous taxation on representation expenses. -/
def _TAXA_TRIB_AUTONOMA : ℚ := 0.10

/-- 5% autonomous taxation on mileage compensation. -/
def _TAXA_TA_KM : ℚ := 0.05

/-- €0.40 per km (`KM_RATE` in `_build_contabilidade`). -/
def KM_RATE : ℚ := 0.40

/- ── configuration (src/app.py lines 782–791, 869–872) ───────────────────── -/

/-- The numeric fields of `_CONTAB_DEFAULTS`, with their documented defaults;
`_get_contab_config` merges persisted overrides over these. -/
structure ContabConfig where
  taxa_iva_rendimentos : ℚ := 23
  irc_taxa_reduzida : ℚ := 16
  irc_limiar_reduzida : ℚ := 50000
  irc_taxa_normal : ℚ := 21
  taxa_derrama : ℚ := 1.5
deriving DecidableEq

/-- The default configuration. -/
def _CONTAB_DEFAULTS : ContabConfig := {}

/- ── tax estimator `_calc_irc` (src/app.py lines 904–917) ────────────────── -/

/-- Source expression: `_calc_irc(resultado, cfg)`: progressive income tax + surtax estimate,
returning `(irc, derrama, subtotal)`. -/
def _calc_irc (resultado : ℚ) (cfg : ContabConfig) : ℚ × ℚ × ℚ :=
  if resultado ≤ 0 then (0, 0, 0)
  else
    let limiar := cfg.irc_limiar_reduzida
    let taxa_red := cfg.irc_taxa_reduzida / 100
    let taxa_norm := cfg.irc_taxa_normal / 100
    let taxa_derrama := cfg.taxa_derrama / 100
    let base_red := min resultado limiar
    let base_norm := max 0 (resultado - limiar)
    let irc := round2 (base_red * taxa_red + base_norm * taxa_norm)
    let derrama := round2 (resultado * taxa_derrama)
    (irc, derrama, round2 (irc + derrama))

/- ── expense rows (despesas.json, consumed at src/app.py lines 955–997) ──── -/

/-- One raw expense row.  The aggregator reads every monetary field through
`_to_float`, so the fields are kept in their stored string form. -/
structure DespesaRow where
  data_fatura : String
  fornecedor : String := ""
  numero_fatura : String := ""
  descricao : String := ""
  tipo_despesa : String := ""
  base_tributavel : String := ""
  iva : String := ""
  iva_6 : String := ""
  iva_13 : String := ""
  iva_23 : String := ""
deriving DecidableEq

/- ── monthly aggregator `_build_contabilidade` (src/app.py lines 920–1050) ─ -/

/-- Source expression: `_to_float(c.get('cachet') or 0)` (an empty string falls to `0`, and
`_to_float('')` is `0` as well). -/
def cachet_of (c : Concert) : ℚ := _to_float c.cachet

/-- Source expression: `_to_float(c.get('km') or 0)`: the `km` field is a number from the
distances cache or `''` (modelled `none`). -/
def km_of (c : Concert) : ℚ := c.km.getD 0

/-- Source expression: `key = (c['year'], c['month'])`. -/
def mes_key (c : Concert) : ℕ × ℕ := (c.year, c.month)

/-- The concerts accumulated into `rend_mes[k]` (not skipped by the
substitute `continue`, and `cachet > 0`). -/
def rend_concerts (concerts : List Concert) (k : ℕ × ℕ) : List Concert :=
  concerts.filter (fun c => decide (c.substituto = "" ∧ mes_key c = k ∧ 0 < cachet_of c))

/-- Source expression: `rend_mes[k]['base']`: the month's revenue base, accumulated unrounded. -/
def rend_base_mes (concerts : List Concert) (k : ℕ × ℕ) : ℚ :=
  ((rend_concerts concerts k).map cachet_of).sum

/-- Source expression: `rend_mes[k]['iva']`: the month's VAT charged — each record contributes
`round(cachet * taxa_iva, 4)`. -/
def rend_iva_mes (concerts : List Concert) (k : ℕ × ℕ) (taxa_iva : ℚ) : ℚ :=
  ((rend_concerts concerts k).map (fun c => round_to 4 (cachet_of c * taxa_iva))).sum

/-- The concerts accumulated into `km_mes[k]` (not skipped, `km > 0`). -/
def km_concerts (concerts : List Concert) (k : ℕ × ℕ) : List Concert :=
  concerts.filter (fun c => decide (c.substituto = "" ∧ mes_key c = k ∧ 0 < km_of c))

/-- Source expression: `km_mes[k]`: the month's mileage value `Σ km * KM_RATE`, unrounded. -/
def km_mes (concerts : List Concert) (k : ℕ × ℕ) : ℚ :=
  ((km_concerts concerts k).map (fun c => km_of c * KM_RATE)).sum

/-- Source expression: `(dt.year, dt.month)` of `datetime.strptime(row['data_fatura'],
'%Y-%m-%d')`; `none` models the `except: continue`. -/
def row_key (r : DespesaRow) : Option (ℕ × ℕ) :=
  (parseYmd r.data_fatura).map (fun d => (d.1, d.2.1))

/-- Source expression: `cat = row.get('tipo_despesa') or 'Outros'`. -/
def cat_of (r : DespesaRow) : String :=
  if r.tipo_despesa = "" then "Outros" else r.tipo_despesa

/-- Source expression: `custo_irc = base + iva_nao_ded` where `iva_nao_ded = iva - iva * fator`. -/
def custo_irc (r : DespesaRow) : ℚ :=
  _to_float r.base_tributavel
    + (_to_float r.iva - _to_float r.iva * _IVA_FACTOR (cat_of r))

/-- The expense rows falling in month bucket `k`. -/
def rows_mes (rows : List DespesaRow) (k : ℕ × ℕ) : List DespesaRow :=
  rows.filter (fun r => decide (row_key r = some k))

/-- Source expression: `gast_mes[k]['base']`, accumulated unrounded. -/
def gast_base_mes (rows : List DespesaRow) (k : ℕ × ℕ) : ℚ :=
  ((rows_mes rows k).map custo_irc).sum

/-- Source expression: `gast_mes[k]['iva']` (deductible VAT `iva * fator`), unrounded. -/
def gast_iva_mes (rows : List DespesaRow) (k : ℕ × ℕ) : ℚ :=
  ((rows_mes rows k).map (fun r => _to_float r.iva * _IVA_FACTOR (cat_of r))).sum

/-- Source expression: `gast_mes[k]['iva_6']`. -/
def gast_iva6_mes (rows : List DespesaRow) (k : ℕ × ℕ) : ℚ :=
  ((rows_mes rows k).map (fun r => _to_float r.iva_6 * _IVA_FACTOR (cat_of r))).sum

/-- Source expression: `gast_mes[k]['iva_13']`. -/
def gast_iva13_mes (rows : List DespesaRow) (k : ℕ × ℕ) : ℚ :=
  ((rows_mes rows k).map (fun r => _to_float r.iva_13 * _IVA_FACTOR (cat_of r))).sum

/-- Source expression: `gast_mes[k]['iva_23']`. -/
def gast_iva23_mes (rows : List DespesaRow) (k : ℕ × ℕ) : ℚ :=
  ((rows_mes rows k).map (fun r => _to_float r.iva_23 * _IVA_FACTOR (cat_of r))).sum

/-- Source expression: `gast_mes[k]['trib_autonoma']`: 10% of `custo_irc` for representation
categories, unrounded. -/
def trib_autonoma_mes (rows : List DespesaRow) (k : ℕ × ℕ) : ℚ :=
  ((rows_mes rows k).map
    (fun r => if _REPRESENTACAO_CATS (cat_of r) then custo_irc r * _TAXA_TRIB_AUTONOMA else 0)).sum

/-- Source expression: `gast_mes[k]['gastos_rep']`. -/
def gastos_rep_mes (rows : List DespesaRow) (k : ℕ × ℕ) : ℚ :=
  ((rows_mes rows k).map
    (fun r => if _REPRESENTACAO_CATS (cat_of r) then custo_irc r else 0)).sum

/-- Source expression: `gast_mes[k]['por_categoria']` as a total function (a missing dict key is
read as 0). -/
def por_categoria_mes (rows : List DespesaRow) (k : ℕ × ℕ) (cat : String) : ℚ :=
  (((rows_mes rows k).filter (fun r => decide (cat_of r = cat))).map custo_irc).sum

/-- The key set of `gast_mes[k]['por_categoria']`: the categories occurring in
month `k`. -/
def cats_mes (rows : List DespesaRow) (k : ℕ × ℕ) : List String :=
  ((rows_mes rows k).map cat_of).dedup

/-- The keys inserted into `rend_mes` (insertion happens under `cachet > 0`). -/
def rend_keys (concerts : List Concert) : List (ℕ × ℕ) :=
  (concerts.filter (fun c => decide (c.substituto = "" ∧ 0 < cachet_of c))).map mes_key

/-- The keys inserted into `km_mes` (insertion happens under `km > 0`). -/
def km_keys (concerts : List Concert) : List (ℕ × ℕ) :=
  (concerts.filter (fun c => decide (c.substituto = "" ∧ 0 < km_of c))).map mes_key

/-- The keys inserted into `gast_mes` (`setdefault` runs for every row whose
date parses, before any amount is read). -/
def gast_keys (rows : List DespesaRow) : List (ℕ × ℕ) :=
  rows.filterMap row_key

/-- Lexicographic order on `(year, month)` keys (Python tuple comparison). -/
def keyLE (a b : ℕ × ℕ) : Prop := a.1 < b.1 ∨ (a.1 = b.1 ∧ a.2 ≤ b.2)

instance : DecidableRel keyLE := fun a b => by unfold keyLE; infer_instance

instance : IsTrans (ℕ × ℕ) keyLE := ⟨by intro a b c hab hbc; unfold keyLE at *; omega⟩

instance : IsAntisymm (ℕ × ℕ) keyLE := ⟨by
  intro a b hab hba
  unfold keyLE at hab hba
  have h : a.1 = b.1 ∧ a.2 = b.2 := by omega
  exact Prod.ext h.1 h.2⟩

instance : IsTotal (ℕ × ℕ) keyLE := ⟨by intro a b; unfold keyLE; omega⟩

/-- Source expression: `all_keys = sorted(set(rend_mes) | set(gast_mes) | set(km_mes))`. -/
def all_keys (concerts : List Concert) (rows : List DespesaRow) : List (ℕ × ℕ) :=
  List.insertionSort keyLE (rend_keys concerts ++ km_keys concerts ++ gast_keys rows).dedup

/-- One emitted month record of `_build_contabilidade`. -/
structure MonthSummary where
  year : ℕ
  month : ℕ
  rendimentos : ℚ
  iva_liquidado : ℚ
  gastos_despesas : ℚ
  gastos_km : ℚ
  gastos_total : ℚ
  iva_deducivel : ℚ
  iva_deducivel_6 : ℚ
  iva_deducivel_13 : ℚ
  iva_deducivel_23 : ℚ
  iva_saldo : ℚ
  resultado : ℚ
  irc_estimado : ℚ
  derrama_estimada : ℚ
  irc_subtotal : ℚ
  tributacao_autonoma : ℚ
  ta_representacao : ℚ
  ta_km : ℚ
  gastos_representacao : ℚ
  irc_total : ℚ
  por_categoria : String → ℚ

/-- Emission of one month (src/app.py lines 1002–1048). -/
def build_summary (concerts : List Concert) (rows : List DespesaRow)
    (cfg : ContabConfig) (k : ℕ × ℕ) : MonthSummary :=
  let taxa_iva := cfg.taxa_iva_rendimentos / 100
  let km_val := round2 (km_mes concerts k)
  let g_base := round2 (gast_base_mes rows k)
  let g_total := round2 (g_base + km_val)
  let r_base := round2 (rend_base_mes concerts k)
  let iva_liq := round2 (rend_iva_mes concerts k taxa_iva)
  let iva_ded := round2 (gast_iva_mes rows k)
  let iva_saldo := round2 (iva_liq - iva_ded)
  let resultado := round2 (r_base - g_total)
  let ta_rep := round2 (trib_autonoma_mes rows k)
  let ta_km := round2 (km_val * _TAXA_TA_KM)
  let trib_auto := round2 (ta_rep + ta_km)
  let gastos_rep := round2 (gastos_rep_mes rows k)
  let irc := (_calc_irc resultado cfg).1
  let derrama := (_calc_irc resultado cfg).2.1
  let irc_subtotal := (_calc_irc resultado cfg).2.2
  let irc_total := round2 (irc_subtotal + trib_auto)
  { year := k.1, month := k.2,
    rendimentos := r_base, iva_liquidado := iva_liq,
    gastos_despesas := g_base, gastos_km := km_val, gastos_total := g_total,
    iva_deducivel := iva_ded,
    iva_deducivel_6 := round2 (gast_iva6_mes rows k),
    iva_deducivel_13 := round2 (gast_iva13_mes rows k),
    iva_deducivel_23 := round2 (gast_iva23_mes rows k),
    iva_saldo := iva_saldo, resultado := resultado,
    irc_estimado := irc, derrama_estimada := derrama,
    irc_subtotal := round2 irc_subtotal,
    tributacao_autonoma := trib_auto, ta_representacao := ta_rep, ta_km := ta_km,
    gastos_representacao := gastos_rep, irc_total := irc_total,
    por_categoria := por_categoria_mes rows k }

/-- Source expression: `_build_contabilidade` (src/app.py lines 920–1050), parameterized by the
store snapshots it reads: one `MonthSummary` per key, sorted ascending. -/
def _build_contabilidade (concerts : List Concert) (rows : List DespesaRow)
    (cfg : ContabConfig) : List MonthSummary :=
  (all_keys concerts rows).map (build_summary concerts rows cfg)

/-- The full pipeline as invoked by the route handlers: normalize the raw
event stores, then aggregate. -/
def _build_contabilidade_from_stores (events : List (String × EventBase))
    (concert_data : List (String × ConcertOverride))
    (artist_base : List (String × String)) (distances : List (String × ℚ))
    (rows : List DespesaRow) (cfg : ContabConfig) : List MonthSummary :=
  _build_contabilidade
    (_build_concerts_from_local events concert_data artist_base distances) rows cfg

/- ── spec-side definitions (written from the spec's words, for comparison) ─ -/

/-- Spec-side tax estimator, following the words of §4.4: zero for
non-positive results; otherwise reduced/normal split, surtax on the full
result, and `subtotal = income tax + surtax` with the two addends (already
rounded to 2 decimals) summed as they are. -/
def spec_calc_irc (resultado : ℚ) (cfg : ContabConfig) : ℚ × ℚ × ℚ :=
  if resultado ≤ 0 then (0, 0, 0)
  else
    let irc := round2 (min resultado cfg.irc_limiar_reduzida * (cfg.irc_taxa_reduzida / 100)
      + max 0 (resultado - cfg.irc_limiar_reduzida) * (cfg.irc_taxa_normal / 100))
    let derrama := round2 (resultado * (cfg.taxa_derrama / 100))
    (irc, derrama, irc + derrama)

/-- Spec-side monthly VAT charged, following the words of §4.2/§4.3: each
event contributes `fee × rate` at full precision; the sum is rounded only
when emitted. -/
def spec_vat_charged (concerts : List Concert) (k : ℕ × ℕ) (taxa_iva : ℚ) : ℚ :=
  ((rend_concerts concerts k).map (fun c => cachet_of c * taxa_iva)).sum

/- ── concrete fixtures used by the counterexamples and witnesses ─────────── -/

/-- A revenue event whose fee times the 23% VAT rate has more than 4 decimal
places (`0.0217 × 0.23 = 0.004991`). -/
def C2_concert : Concert :=
  { id := "c2", date := "15/01/2024", time := "", year := 2024, month := 1,
    artista := "A", evento := "E", «local» := "V", substituto := "",
    cachet := "0.0217", km := none }

/-- A revenue event whose mileage sum rounds across a cent boundary before
the 5% mileage autonomous tax is applied (`125.2475 × 0.40 = 50.099`). -/
def C2_km_concert : Concert :=
  { id := "c2k", date := "15/02/2024", time := "", year := 2024, month := 2,
    artista := "A", evento := "E", «local» := "V", substituto := "",
    cachet := "", km := some (125.2475 : ℚ) }

/-- An expense row whose income-tax-relevant cost has three decimal places
(category factor 0, so `custo_irc = 100 + 0.004`). -/
def C5_row : DespesaRow :=
  { data_fatura := "2024-01-15", tipo_despesa := "Alimentação e Bebidas",
    base_tributavel := "100", iva := "0.004" }

/-- Base event for the override-precedence counterexample. -/
def C1_event : EventBase := ⟨"2024-05-01", "A | E, V"⟩

/-- Override store holding an override record whose `artista` key is stored
with the empty string. -/
def C1_overrides : List (String × ConcertOverride) := [("e", { artista := some "" })]

/-- A substituted event carrying a fee source and a known distance. -/
def C10_concert : Concert :=
  { id := "s", date := "05/06/2024", time := "", year := 2024, month := 6,
    artista := "A", evento := "E", «local» := "V", substituto := "S",
    cachet := "500", km := some 100 }

/-- Base event whose start value does not parse. -/
def C9_event : EventBase := ⟨"31/12/2024", "A | E, V"⟩

/-- Expense row whose invoice date does not parse. -/
def C9_row : DespesaRow :=
  { data_fatura := "31/12/2024", tipo_despesa := "Outros",
    base_tributavel := "50", iva := "11.5" }

/-- A well-formed expense row, aggregated alongside the malformed one. -/
def C9_good_row : DespesaRow :=
  { data_fatura := "2024-04-02", tipo_despesa := "Outros",
    base_tributavel := "10", iva := "2.3" }

/-- Base event store entry whose event has a blank fee (no override, no
artist base fee): its month must appear in the output according to C3. -/
def C3_event : EventBase := ⟨"2024-03-10", "A | E, V"⟩

/-- Two concerts in distinct months, used to exercise input-order
independence. -/
def C8_concert_a : Concert :=
  { id := "a", date := "05/02/2024", time := "", year := 2024, month := 2,
    artista := "A", evento := "E", «local» := "V", substituto := "",
    cachet := "700", km := some 10 }

def C8_concert_b : Concert :=
  { id := "b", date := "09/01/2024", time := "", year := 2024, month := 1,
    artista := "B", evento := "E2", «local» := "W", substituto := "",
    cachet := "350.50", km := none }

def C8_row_a : DespesaRow :=
  { data_fatura := "2024-01-07", tipo_despesa := "Telecomunicações",
    base_tributavel := "30", iva := "6.9" }

def C8_row_b : DespesaRow :=
  { data_fatura := "2024-02-11", tipo_despesa := "Combustíveis e Lubrificantes",
    base_tributavel := "60", iva := "13.8" }

/- ── rounding lemmas ─────────────────────────────────────────────────────── -/

lemma qfloor_eq_floor (q : ℚ) : qfloor q = ⌊q⌋ := Rat.floor_def.symm

lemma floor_intCast_add_half (z : ℤ) : ⌊(z : ℚ) + 1/2⌋ = z := by
  rw [add_comm, Int.floor_add_int]
  norm_num

/-- Rounding an integer multiple of `10 ^ (-nd)` is the identity. -/
lemma round_to_int_div (nd : ℕ) (z : ℤ) :
    round_to nd ((z : ℚ) / 10 ^ nd) = (z : ℚ) / 10 ^ nd := by
  unfold round_to
  rw [qfloor_eq_floor]
  have h10 : ((10 : ℚ) ^ nd) ≠ 0 := by positivity
  rw [div_mul_cancel₀ _ h10, floor_intCast_add_half]

/-- A 2-decimal value plus a 2-decimal value survives the final
`round(..., 2)` unchanged (src/app.py line 917). -/
lemma round2_add_round2 (a b : ℚ) :
    round2 (round2 a + round2 b) = round2 a + round2 b := by
  unfold round2 round_to
  have h : (qfloor (a * 10 ^ 2 + 1/2) : ℚ) / 10 ^ 2 + (qfloor (b * 10 ^ 2 + 1/2) : ℚ) / 10 ^ 2
      = ((qfloor (a * 10 ^ 2 + 1/2) + qfloor (b * 10 ^ 2 + 1/2) : ℤ) : ℚ) / 10 ^ 2 := by
    push_cast
    ring
  rw [h]
  have h2 := round_to_int_div 2 (qfloor (a * 10 ^ 2 + 1/2) + qfloor (b * 10 ^ 2 + 1/2))
  unfold round_to at h2
  exact h2

/- ── C4: the tax estimator ───────────────────────────────────────────────── -/

/-- C4: for every net result and configuration, `_calc_irc` returns all zeros
when the result is non-positive, and otherwise income tax
`min(result, threshold) × reduced rate + max(0, result − threshold) × normal
rate`, surtax `result × surtax rate` (independent of the threshold split),
and subtotal = income tax + surtax, each addend rounded to 2 decimals; at
result 1800 with the default configuration this gives (288.00, 27.00,
315.00). -/
theorem claim_C4_calc_irc :
    (∀ (resultado : ℚ) (cfg : ContabConfig),
      _calc_irc resultado cfg = spec_calc_irc resultado cfg)
    ∧ _calc_irc 1800 _CONTAB_DEFAULTS = (288, 27, 315) := by
  constructor
  · intro resultado cfg
    unfold _calc_irc spec_calc_irc
    split
    · rfl
    · dsimp only
      rw [round2_add_round2]
  · decide

/- ── C2: accumulation precision ──────────────────────────────────────────── -/

/-- C2 (amended): every monthly sum is accumulated from unrounded per-record
values and rounded to 2 decimals exactly once at emission, with two
exceptions visible in the last two conjuncts: VAT charged accumulates
per-record values already rounded to 4 decimal places
(`round(cachet * taxa_iva, 4)`, src/app.py line 943), and the mileage
autonomous tax is computed from the already-rounded mileage value
(src/app.py lines 1011, 1020) rather than from the full-precision sum. -/
theorem claim_C2_rounding (concerts : List Concert) (rows : List DespesaRow)
    (cfg : ContabConfig) (k : ℕ × ℕ) :
    (build_summary concerts rows cfg k).rendimentos
      = round2 (((rend_concerts concerts k).map (fun c => cachet_of c)).sum)
    ∧ (build_summary concerts rows cfg k).gastos_despesas
      = round2 (((rows_mes rows k).map custo_irc).sum)
    ∧ (build_summary concerts rows cfg k).iva_deducivel
      = round2 (((rows_mes rows k).map (fun r => _to_float r.iva * _IVA_FACTOR (cat_of r))).sum)
    ∧ (build_summary concerts rows cfg k).iva_deducivel_6
      = round2 (((rows_mes rows k).map (fun r => _to_float r.iva_6 * _IVA_FACTOR (cat_of r))).sum)
    ∧ (build_summary concerts rows cfg k).iva_deducivel_13
      = round2 (((rows_mes rows k).map (fun r => _to_float r.iva_13 * _IVA_FACTOR (cat_of r))).sum)
    ∧ (build_summary concerts rows cfg k).iva_deducivel_23
      = round2 (((rows_mes rows k).map (fun r => _to_float r.iva_23 * _IVA_FACTOR (cat_of r))).sum)
    ∧ (build_summary concerts rows cfg k).gastos_km
      = round2 (((km_concerts concerts k).map (fun c => km_of c * KM_RATE)).sum)
    ∧ (build_summary concerts rows cfg k).ta_representacao
      = round2 (((rows_mes rows k).map
          (fun r => if _REPRESENTACAO_CATS (cat_of r) then custo_irc r * _TAXA_TRIB_AUTONOMA
            else 0)).sum)
    ∧ (build_summary concerts rows cfg k).iva_liquidado
      = round2 (((rend_concerts concerts k).map
          (fun c => round_to 4 (cachet_of c * (cfg.taxa_iva_rendimentos / 100)))).sum)
    ∧ (build_summary concerts rows cfg k).ta_km
      = round2 (round2 (((km_concerts concerts k).map (fun c => km_of c * KM_RATE)).sum)
          * _TAXA_TA_KM) :=
  ⟨rfl, rfl, rfl, rfl, rfl, rfl, rfl, rfl, rfl, rfl⟩

/-- C2 (counterexample): the claim as stated fails.  With one event of fee
0.0217 the emitted VAT charged is 0.01, while full-precision accumulation
rounded once at emission gives 0.00; with one event of 125.2475 km the
emitted mileage autonomous tax is 2.51, while the full-precision value
rounded once is 2.50. -/
theorem claim_C2_counterexample :
    (_build_contabilidade [C2_concert] [] _CONTAB_DEFAULTS).map (fun s => s.iva_liquidado)
      ≠ [round2 (spec_vat_charged [C2_concert] (2024, 1)
          (_CONTAB_DEFAULTS.taxa_iva_rendimentos / 100))]
    ∧ (_build_contabilidade [C2_km_concert] [] _CONTAB_DEFAULTS).map (fun s => s.ta_km)
      ≠ [round2 (km_mes [C2_km_concert] (2024, 2) * _TAXA_TA_KM)] := by
  constructor
  · decide
  · decide

/- ── C5: per-category breakdown vs expense base ──────────────────────────── -/

lemma sum_filter_add_sum_filter_not {α : Type} (l : List α) (p : α → Bool) (f : α → ℚ) :
    ((l.filter p).map f).sum + ((l.filter (fun a => !p a)).map f).sum = (l.map f).sum := by
  induction l with
  | nil => simp
  | cons a t ih =>
    cases h : p a <;> simp [List.filter_cons, h] <;> rw [← ih] <;> ring

/-- Summing fiberwise over a duplicate-free covering list of classes gives
the total sum. -/
lemma fiber_sum {α β : Type} [DecidableEq β] (g : α → β) (f : α → ℚ) :
    ∀ (cats : List β) (l : List α), cats.Nodup → (∀ a ∈ l, g a ∈ cats) →
      (cats.map (fun b => ((l.filter (fun a => decide (g a = b))).map f).sum)).sum
        = (l.map f).sum := by
  intro cats
  induction cats with
  | nil =>
    intro l _ hcov
    cases l with
    | nil => simp
    | cons a t => exact absurd (hcov a (List.mem_cons_self a t)) (List.not_mem_nil _)
  | cons b bs ih =>
    intro l hnd hcov
    have hb : b ∉ bs := (List.nodup_cons.mp hnd).1
    have hbs : bs.Nodup := (List.nodup_cons.mp hnd).2
    set l2 := l.filter (fun a => !(decide (g a = b))) with hl2
    have hcov2 : ∀ a ∈ l2, g a ∈ bs := by
      intro a ha
      have hmem := List.mem_filter.mp ha
      have hne : g a ≠ b := by simpa using hmem.2
      rcases List.mem_cons.mp (hcov a hmem.1) with h | h
      · exact absurd h hne
      · exact h
    have hfib : ∀ c ∈ bs,
        (l.filter (fun a => decide (g a = c))) = (l2.filter (fun a => decide (g a = c))) := by
      intro c hc
      have hcb : c ≠ b := by intro hcb; exact hb (hcb ▸ hc)
      rw [hl2, List.filter_filter]
      apply List.filter_congr
      intro a _
      by_cases hg : g a = c
      · simp [hg, hcb]
      · simp [hg]
    calc (((b :: bs).map (fun c => ((l.filter (fun a => decide (g a = c))).map f).sum)).sum)
        = ((l.filter (fun a => decide (g a = b))).map f).sum
          + ((bs.map (fun c => ((l.filter (fun a => decide (g a = c))).map f).sum)).sum) := by
          simp
      _ = ((l.filter (fun a => decide (g a = b))).map f).sum
          + ((bs.map (fun c => ((l2.filter (fun a => decide (g a = c))).map f).sum)).sum) := by
          congr 1
          congr 1
          apply List.map_congr_left
          intro c hc
          rw [hfib c hc]
      _ = ((l.filter (fun a => decide (g a = b))).map f).sum + (l2.map f).sum := by
          rw [ih l2 hbs hcov2]
      _ = (l.map f).sum := sum_filter_add_sum_filter_not l _ f

/-- C5 (amended): for every month, the per-category breakdown values sum
exactly to the month's full-precision (unrounded) expense base; the emitted
expense-base field is the 2-decimal rounding of that same sum, so the two
agree exactly only when the accumulated base has at most two decimals. -/
theorem claim_C5_breakdown (concerts : List Concert) (rows : List DespesaRow)
    (cfg : ContabConfig) (k : ℕ × ℕ) :
    ((cats_mes rows k).map ((build_summary concerts rows cfg k).por_categoria)).sum
      = gast_base_mes rows k
    ∧ (build_summary concerts rows cfg k).gastos_despesas = round2 (gast_base_mes rows k) := by
  constructor
  · have hpc : (build_summary concerts rows cfg k).por_categoria = por_categoria_mes rows k :=
      rfl
    rw [hpc]
    unfold por_categoria_mes cats_mes gast_base_mes
    apply fiber_sum cat_of custo_irc
    · exact List.nodup_dedup _
    · intro r hr
      exact List.mem_dedup.mpr (List.mem_map_of_mem cat_of hr)
  · rfl

/-- C5 (counterexample): in the emitted output for a month holding one
"Alimentação e Bebidas" row with base 100 and VAT 0.004, the breakdown sums
to 100.004 while the emitted expense base is 100.00. -/
theorem claim_C5_counterexample :
    (build_summary [] [C5_row] _CONTAB_DEFAULTS (2024, 1))
        ∈ _build_contabilidade [] [C5_row] _CONTAB_DEFAULTS
    ∧ ((cats_mes [C5_row] (2024, 1)).map
        ((build_summary [] [C5_row] _CONTAB_DEFAULTS (2024, 1)).por_categoria)).sum
      ≠ (build_summary [] [C5_row] _CONTAB_DEFAULTS (2024, 1)).gastos_despesas := by
  constructor
  · exact List.mem_map_of_mem _ (by decide)
  · decide

/- ── C3: the emitted key set ─────────────────────────────────────────────── -/

lemma keys_of_build (concerts : List Concert) (rows : List DespesaRow) (cfg : ContabConfig) :
    (_build_contabilidade concerts rows cfg).map (fun s => (s.year, s.month))
      = all_keys concerts rows := by
  unfold _build_contabilidade
  rw [List.map_map]
  have h : ((fun s : MonthSummary => (s.year, s.month)) ∘ build_summary concerts rows cfg)
      = id := funext fun k => rfl
  rw [h, List.map_id]

lemma mem_all_keys (concerts : List Concert) (rows : List DespesaRow) (k : ℕ × ℕ) :
    k ∈ all_keys concerts rows
      ↔ k ∈ rend_keys concerts ++ km_keys concerts ++ gast_keys rows := by
  unfold all_keys
  rw [(List.perm_insertionSort keyLE _).mem_iff, List.mem_dedup]

lemma mem_rend_keys (concerts : List Concert) (k : ℕ × ℕ) :
    k ∈ rend_keys concerts
      ↔ ∃ c ∈ concerts, c.substituto = "" ∧ 0 < cachet_of c ∧ mes_key c = k := by
  unfold rend_keys
  simp [List.mem_map, List.mem_filter, and_assoc]

lemma mem_km_keys (concerts : List Concert) (k : ℕ × ℕ) :
    k ∈ km_keys concerts
      ↔ ∃ c ∈ concerts, c.substituto = "" ∧ 0 < km_of c ∧ mes_key c = k := by
  unfold km_keys
  simp [List.mem_map, List.mem_filter, and_assoc]

lemma mem_gast_keys (rows : List DespesaRow) (k : ℕ × ℕ) :
    k ∈ gast_keys rows ↔ ∃ r ∈ rows, row_key r = some k := by
  unfold gast_keys
  simp [List.mem_filterMap]

/-- C3 (amended): the aggregation emits exactly one summary per key (the key
list is duplicate-free), and a month key appears in the output exactly when
some non-substitute revenue event with *positive* fee or *positive* distance
falls in it, or some expense row with a parseable invoice date falls in it.
A month holding only zero-fee or blank-fee revenue events (and no distance)
is *not* emitted. -/
theorem claim_C3_month_keys (concerts : List Concert) (rows : List DespesaRow)
    (cfg : ContabConfig) :
    ((_build_contabilidade concerts rows cfg).map (fun s => (s.year, s.month))).Nodup
    ∧ ∀ k : ℕ × ℕ,
      ((∃ s ∈ _build_contabilidade concerts rows cfg, (s.year, s.month) = k)
        ↔ ((∃ c ∈ concerts,
              c.substituto = "" ∧ (0 < cachet_of c ∨ 0 < km_of c) ∧ mes_key c = k)
            ∨ (∃ r ∈ rows, row_key r = some k))) := by
  constructor
  · rw [keys_of_build]
    unfold all_keys
    exact ((List.perm_insertionSort keyLE _).nodup_iff).mpr (List.nodup_dedup _)
  · intro k
    have h1 : (∃ s ∈ _build_contabilidade concerts rows cfg, (s.year, s.month) = k)
        ↔ k ∈ (_build_contabilidade concerts rows cfg).map (fun s => (s.year, s.month)) :=
      List.mem_map.symm
    rw [h1, keys_of_build, mem_all_keys, List.mem_append, List.mem_append,
      mem_rend_keys, mem_km_keys, mem_gast_keys]
    constructor
    · rintro ((⟨c, hc, h1, h2, h3⟩ | ⟨c, hc, h1, h2, h3⟩) | hr)
      · exact Or.inl ⟨c, hc, h1, Or.inl h2, h3⟩
      · exact Or.inl ⟨c, hc, h1, Or.inr h2, h3⟩
      · exact Or.inr hr
    · rintro (⟨c, hc, h1, h2 | h2, h3⟩ | hr)
      · exact Or.inl (Or.inl ⟨c, hc, h1, h2, h3⟩)
      · exact Or.inl (Or.inr ⟨c, hc, h1, h2, h3⟩)
      · exact Or.inr hr

set_option maxRecDepth 10000 in
/-- C3 (counterexample): running the full pipeline on a base store holding a
single event dated 2024-03-10 with a blank fee produces an *empty* output:
the month (2024, 3) contains a revenue event yet no summary is emitted. -/
theorem claim_C3_counterexample :
    _build_contabilidade_from_stores [("e1", C3_event)] [] [] [] [] _CONTAB_DEFAULTS = []
    ∧ (normalize_event "e1" C3_event [] [] []).year = 2024
    ∧ (normalize_event "e1" C3_event [] [] []).month = 3
    ∧ (normalize_event "e1" C3_event [] [] []).substituto = ""
    ∧ (normalize_event "e1" C3_event [] [] []).cachet = "" := by
  refine ⟨by rfl, by decide, by decide, by decide, by decide⟩

/- ── C9: malformed dates never fail ──────────────────────────────────────── -/

lemma rows_mes_filter_parseable (rows : List DespesaRow) (k : ℕ × ℕ) :
    rows_mes (rows.filter (fun r => (row_key r).isSome)) k = rows_mes rows k := by
  unfold rows_mes
  rw [List.filter_filter]
  apply List.filter_congr
  intro r _
  cases h : row_key r <;> simp [h]

lemma por_categoria_filter_parseable (rows : List DespesaRow) (k : ℕ × ℕ) :
    por_categoria_mes (rows.filter (fun r => (row_key r).isSome)) k
      = por_categoria_mes rows k := by
  funext cat
  unfold por_categoria_mes
  rw [rows_mes_filter_parseable]

lemma build_summary_filter_parseable (concerts : List Concert) (rows : List DespesaRow)
    (cfg : ContabConfig) :
    build_summary concerts (rows.filter (fun r => (row_key r).isSome)) cfg
      = build_summary concerts rows cfg := by
  funext k
  unfold build_summary
  rw [por_categoria_filter_parseable]
  unfold gast_base_mes gast_iva_mes gast_iva6_mes gast_iva13_mes gast_iva23_mes
    trib_autonoma_mes gastos_rep_mes
  rw [rows_mes_filter_parseable]

lemma gast_keys_filter_parseable (rows : List DespesaRow) :
    gast_keys (rows.filter (fun r => (row_key r).isSome)) = gast_keys rows := by
  unfold gast_keys
  induction rows with
  | nil => rfl
  | cons r t ih =>
    cases h : row_key r <;>
      simp [List.filter_cons, List.filterMap_cons, h, ih]

lemma all_keys_filter_parseable (concerts : List Concert) (rows : List DespesaRow) :
    all_keys concerts (rows.filter (fun r => (row_key r).isSome)) = all_keys concerts rows := by
  unfold all_keys
  rw [gast_keys_filter_parseable]

/-- C9: the computation never fails on malformed dates.  Dropping every
expense row whose invoice date does not parse leaves the aggregation output
unchanged (such rows are excluded while all others are still aggregated), and
a revenue event whose start value does not parse keeps the raw string as its
date with year and month set to the sentinel 0. -/
theorem claim_C9_malformed_dates :
    (∀ (concerts : List Concert) (rows : List DespesaRow) (cfg : ContabConfig),
      _build_contabilidade concerts rows cfg
        = _build_contabilidade concerts (rows.filter (fun r => (row_key r).isSome)) cfg)
    ∧ (∀ (event_id : String) (ev : EventBase)
        (concert_data : List (String × ConcertOverride))
        (artist_base : List (String × String)) (distances : List (String × ℚ)),
        parse_start ev.start = none →
          (normalize_event event_id ev concert_data artist_base distances).date = ev.start
          ∧ (normalize_event event_id ev concert_data artist_base distances).year = 0
          ∧ (normalize_event event_id ev concert_data artist_base distances).month = 0) := by
  constructor
  · intro concerts rows cfg
    unfold _build_contabilidade
    rw [all_keys_filter_parseable, build_summary_filter_parseable]
  · intro event_id ev cd ab ds h
    refine ⟨?_, ?_, ?_⟩ <;> simp [normalize_event, h]

set_option maxRecDepth 10000 in
/-- C9 (witness): concrete instance at a malformed expense date and a
malformed revenue start value. -/
theorem claim_C9_witness :
    row_key C9_row = none
    ∧ parse_start C9_event.start = none
    ∧ _build_contabilidade [] [C9_row, C9_good_row] _CONTAB_DEFAULTS
        = _build_contabilidade []
            ([C9_row, C9_good_row].filter (fun r => (row_key r).isSome)) _CONTAB_DEFAULTS
    ∧ (normalize_event "e9" C9_event [] [] []).date = C9_event.start
    ∧ (normalize_event "e9" C9_event [] [] []).year = 0
    ∧ (normalize_event "e9" C9_event [] [] []).month = 0 :=
  ⟨by decide, by decide,
    claim_C9_malformed_dates.1 [] [C9_row, C9_good_row] _CONTAB_DEFAULTS,
    (claim_C9_malformed_dates.2 "e9" C9_event [] [] [] (by decide)).1,
    (claim_C9_malformed_dates.2 "e9" C9_event [] [] [] (by decide)).2.1,
    (claim_C9_malformed_dates.2 "e9" C9_event [] [] [] (by decide)).2.2⟩

/- ── C10 / C7: substitute events ─────────────────────────────────────────── -/

lemma rend_concerts_cons_sub {c : Concert} (h : c.substituto ≠ "") (cs : List Concert)
    (k : ℕ × ℕ) : rend_concerts (c :: cs) k = rend_concerts cs k := by
  unfold rend_concerts
  simp [List.filter_cons, h]

lemma km_concerts_cons_sub {c : Concert} (h : c.substituto ≠ "") (cs : List Concert)
    (k : ℕ × ℕ) : km_concerts (c :: cs) k = km_concerts cs k := by
  unfold km_concerts
  simp [List.filter_cons, h]

lemma rend_keys_cons_sub {c : Concert} (h : c.substituto ≠ "") (cs : List Concert) :
    rend_keys (c :: cs) = rend_keys cs := by
  unfold rend_keys
  simp [List.filter_cons, h]

lemma km_keys_cons_sub {c : Concert} (h : c.substituto ≠ "") (cs : List Concert) :
    km_keys (c :: cs) = km_keys cs := by
  unfold km_keys
  simp [List.filter_cons, h]

lemma build_summary_cons_sub {c : Concert} (h : c.substituto ≠ "") (cs : List Concert)
    (rows : List DespesaRow) (cfg : ContabConfig) :
    build_summary (c :: cs) rows cfg = build_summary cs rows cfg := by
  funext k
  unfold build_summary rend_base_mes rend_iva_mes km_mes
  rw [rend_concerts_cons_sub h, km_concerts_cons_sub h]

lemma all_keys_cons_sub {c : Concert} (h : c.substituto ≠ "") (cs : List Concert)
    (rows : List DespesaRow) :
    all_keys (c :: cs) rows = all_keys cs rows := by
  unfold all_keys
  rw [rend_keys_cons_sub h, km_keys_cons_sub h]

/-- C10: a revenue event with a non-empty substitute is skipped before any
accumulation, including the distance accumulation, so it affects no monthly
field at all: removing it from the input leaves the entire output unchanged,
even when it carries a known distance. -/
theorem claim_C10_substitute_all_fields (c : Concert) (cs : List Concert)
    (rows : List DespesaRow) (cfg : ContabConfig) (h : c.substituto ≠ "") :
    _build_contabilidade (c :: cs) rows cfg = _build_contabilidade cs rows cfg := by
  unfold _build_contabilidade
  rw [all_keys_cons_sub h, build_summary_cons_sub h]

set_option maxRecDepth 10000 in
/-- C10 (witness): a substituted event with fee source 500 and a 100 km
distance contributes nothing. -/
theorem claim_C10_witness :
    C10_concert.substituto ≠ ""
    ∧ C10_concert.km = some 100
    ∧ C10_concert.cachet = "500"
    ∧ _build_contabilidade [C10_concert] [] _CONTAB_DEFAULTS
        = _build_contabilidade [] [] _CONTAB_DEFAULTS :=
  ⟨by decide, by decide, by decide,
    claim_C10_substitute_all_fields C10_concert [] [] _CONTAB_DEFAULTS (by decide)⟩

/-- C7: a non-empty final (post-override) substitute forces the event's fee
to the string "0" in the normalizer, regardless of any other fee source; and
in the aggregator such an event contributes nothing to its month's revenue
base or VAT-charged sums. -/
theorem claim_C7_substitute_rule :
    (∀ (event_id : String) (ev : EventBase)
      (concert_data : List (String × ConcertOverride))
      (artist_base : List (String × String)) (distances : List (String × ℚ)),
      (normalize_event event_id ev concert_data artist_base distances).substituto ≠ "" →
        (normalize_event event_id ev concert_data artist_base distances).cachet = "0")
    ∧ (∀ (c : Concert) (cs : List Concert) (k : ℕ × ℕ) (taxa_iva : ℚ),
        c.substituto ≠ "" →
          rend_base_mes (c :: cs) k = rend_base_mes cs k
          ∧ rend_iva_mes (c :: cs) k taxa_iva = rend_iva_mes cs k taxa_iva) := by
  constructor
  · intro event_id ev cd ab ds h
    have hsub : (normalize_event event_id ev cd ab ds).substituto
        = (lookupOverride event_id cd).substituto.getD
            (parse_event_title ev.summary).substituto := rfl
    have hcac : (normalize_event event_id ev cd ab ds).cachet
        = (if (lookupOverride event_id cd).substituto.getD
              (parse_event_title ev.summary).substituto ≠ "" then "0"
           else if (lookupOverride event_id cd).cachet.getD "" ≠ "" then
             (lookupOverride event_id cd).cachet.getD ""
           else (List.lookup ((lookupOverride event_id cd).artista.getD
             (parse_event_title ev.summary).artista) ab).getD "") := rfl
    rw [hcac, if_pos (fun hx => h (hsub.trans hx ▸ rfl))]
  · intro c cs k taxa h
    constructor
    · unfold rend_base_mes
      rw [rend_concerts_cons_sub h]
    · unfold rend_iva_mes
      rw [rend_concerts_cons_sub h]

/-- C7 (witness): concrete instance with an override substitute, an override
fee and an artist base fee all present. -/
theorem claim_C7_witness :
    (normalize_event "e" ⟨"2024-01-05", "A | E, V"⟩
        [("e", { substituto := some "S", cachet := some "999" })] [("A", "500")] []).substituto
      ≠ ""
    ∧ (normalize_event "e" ⟨"2024-01-05", "A | E, V"⟩
        [("e", { substituto := some "S", cachet := some "999" })] [("A", "500")] []).cachet
      = "0"
    ∧ rend_base_mes [C10_concert] (2024, 6) = rend_base_mes [] (2024, 6)
    ∧ rend_iva_mes [C10_concert] (2024, 6) (23/100) = rend_iva_mes [] (2024, 6) (23/100) :=
  ⟨by decide,
    claim_C7_substitute_rule.1 "e" ⟨"2024-01-05", "A | E, V"⟩
      [("e", { substituto := some "S", cachet := some "999" })] [("A", "500")] [] (by decide),
    (claim_C7_substitute_rule.2 C10_concert [] (2024, 6) (23/100) (by decide)).1,
    (claim_C7_substitute_rule.2 C10_concert [] (2024, 6) (23/100) (by decide)).2⟩

/- ── C8: input-order independence and sortedness ─────────────────────────── -/

lemma sum_map_filter_perm {α : Type} {l1 l2 : List α} (h : l1.Perm l2) (p : α → Bool)
    (f : α → ℚ) : ((l1.filter p).map f).sum = ((l2.filter p).map f).sum :=
  ((h.filter p).map f).sum_eq

lemma rend_base_mes_perm {c1 c2 : List Concert} (h : c1.Perm c2) (k : ℕ × ℕ) :
    rend_base_mes c1 k = rend_base_mes c2 k := by
  unfold rend_base_mes rend_concerts
  exact sum_map_filter_perm h _ _

lemma rend_iva_mes_perm {c1 c2 : List Concert} (h : c1.Perm c2) (k : ℕ × ℕ) (taxa : ℚ) :
    rend_iva_mes c1 k taxa = rend_iva_mes c2 k taxa := by
  unfold rend_iva_mes rend_concerts
  exact sum_map_filter_perm h _ _

lemma km_mes_perm {c1 c2 : List Concert} (h : c1.Perm c2) (k : ℕ × ℕ) :
    km_mes c1 k = km_mes c2 k := by
  unfold km_mes km_concerts
  exact sum_map_filter_perm h _ _

lemma gast_base_mes_perm {r1 r2 : List DespesaRow} (h : r1.Perm r2) (k : ℕ × ℕ) :
    gast_base_mes r1 k = gast_base_mes r2 k := by
  unfold gast_base_mes rows_mes
  exact sum_map_filter_perm h _ _

lemma gast_iva_mes_perm {r1 r2 : List DespesaRow} (h : r1.Perm r2) (k : ℕ × ℕ) :
    gast_iva_mes r1 k = gast_iva_mes r2 k := by
  unfold gast_iva_mes rows_mes
  exact sum_map_filter_perm h _ _

lemma gast_iva6_mes_perm {r1 r2 : List DespesaRow} (h : r1.Perm r2) (k : ℕ × ℕ) :
    gast_iva6_mes r1 k = gast_iva6_mes r2 k := by
  unfold gast_iva6_mes rows_mes
  exact sum_map_filter_perm h _ _

lemma gast_iva13_mes_perm {r1 r2 : List DespesaRow} (h : r1.Perm r2) (k : ℕ × ℕ) :
    gast_iva13_mes r1 k = gast_iva13_mes r2 k := by
  unfold gast_iva13_mes rows_mes
  exact sum_map_filter_perm h _ _

lemma gast_iva23_mes_perm {r1 r2 : List DespesaRow} (h : r1.Perm r2) (k : ℕ × ℕ) :
    gast_iva23_mes r1 k = gast_iva23_mes r2 k := by
  unfold gast_iva23_mes rows_mes
  exact sum_map_filter_perm h _ _

lemma trib_autonoma_mes_perm {r1 r2 : List DespesaRow} (h : r1.Perm r2) (k : ℕ × ℕ) :
    trib_autonoma_mes r1 k = trib_autonoma_mes r2 k := by
  unfold trib_autonoma_mes rows_mes
  exact sum_map_filter_perm h _ _

lemma gastos_rep_mes_perm {r1 r2 : List DespesaRow} (h : r1.Perm r2) (k : ℕ × ℕ) :
    gastos_rep_mes r1 k = gastos_rep_mes r2 k := by
  unfold gastos_rep_mes rows_mes
  exact sum_map_filter_perm h _ _

lemma por_categoria_mes_perm {r1 r2 : List DespesaRow} (h : r1.Perm r2) (k : ℕ × ℕ) :
    por_categoria_mes r1 k = por_categoria_mes r2 k := by
  funext cat
  unfold por_categoria_mes rows_mes
  rw [List.filter_filter, List.filter_filter]
  exact sum_map_filter_perm h _ _

lemma sortKeys_eq_of_perm {l1 l2 : List (ℕ × ℕ)} (h : l1.Perm l2) :
    List.insertionSort keyLE l1 = List.insertionSort keyLE l2 :=
  List.eq_of_perm_of_sorted
    ((List.perm_insertionSort keyLE l1).trans (h.trans (List.perm_insertionSort keyLE l2).symm))
    (List.sorted_insertionSort keyLE l1) (List.sorted_insertionSort keyLE l2)

lemma all_keys_perm {c1 c2 : List Concert} {r1 r2 : List DespesaRow}
    (hc : c1.Perm c2) (hr : r1.Perm r2) :
    all_keys c1 r1 = all_keys c2 r2 := by
  unfold all_keys rend_keys km_keys gast_keys
  exact sortKeys_eq_of_perm
    (((((hc.filter _).map _).append ((hc.filter _).map _)).append (hr.filterMap _)).dedup)

lemma build_summary_perm {c1 c2 : List Concert} {r1 r2 : List DespesaRow}
    (hc : c1.Perm c2) (hr : r1.Perm r2) (cfg : ContabConfig) :
    build_summary c1 r1 cfg = build_summary c2 r2 cfg := by
  funext k
  unfold build_summary
  dsimp only
  rw [por_categoria_mes_perm hr, rend_base_mes_perm hc, rend_iva_mes_perm hc,
    km_mes_perm hc, gast_base_mes_perm hr, gast_iva_mes_perm hr, gast_iva6_mes_perm hr,
    gast_iva13_mes_perm hr, gast_iva23_mes_perm hr, trib_autonoma_mes_perm hr,
    gastos_rep_mes_perm hr]

/-- C8: the aggregation is independent of the order of the revenue-event and
expense-row inputs — permuting both leaves the output sequence identical —
and the output is emitted sorted ascending by (year, month). -/
theorem claim_C8_order_independence (concerts1 concerts2 : List Concert)
    (rows1 rows2 : List DespesaRow) (cfg : ContabConfig)
    (hc : concerts1.Perm concerts2) (hr : rows1.Perm rows2) :
    _build_contabilidade concerts1 rows1 cfg = _build_contabilidade concerts2 rows2 cfg
    ∧ List.Sorted keyLE
        ((_build_contabilidade concerts1 rows1 cfg).map (fun s => (s.year, s.month))) := by
  constructor
  · unfold _build_contabilidade
    rw [all_keys_perm hc hr, build_summary_perm hc hr]
  · rw [keys_of_build]
    unfold all_keys
    exact List.sorted_insertionSort keyLE _

set_option maxRecDepth 10000 in
/-- C8 (witness): two concerts and two rows, each pair swapped. -/
theorem claim_C8_witness :
    ([C8_concert_a, C8_concert_b].Perm [C8_concert_b, C8_concert_a])
    ∧ ([C8_row_a, C8_row_b].Perm [C8_row_b, C8_row_a])
    ∧ _build_contabilidade [C8_concert_a, C8_concert_b] [C8_row_a, C8_row_b] _CONTAB_DEFAULTS
        = _build_contabilidade [C8_concert_b, C8_concert_a] [C8_row_b, C8_row_a]
            _CONTAB_DEFAULTS
    ∧ List.Sorted keyLE ((_build_contabilidade [C8_concert_a, C8_concert_b]
        [C8_row_a, C8_row_b] _CONTAB_DEFAULTS).map (fun s => (s.year, s.month))) :=
  ⟨List.Perm.swap _ _ _, List.Perm.swap _ _ _,
    (claim_C8_order_independence _ _ _ _ _CONTAB_DEFAULTS
      (List.Perm.swap _ _ _) (List.Perm.swap _ _ _)).1,
    (claim_C8_order_independence _ _ _ _ _CONTAB_DEFAULTS
      (List.Perm.swap _ _ _) (List.Perm.swap _ _ _)).2⟩

/- ── C1: override merge precedence ───────────────────────────────────────── -/

/-- C1 (amended): for the four text fields {performer, event, venue,
substitute}, an override *key that is present* always wins — even when its
stored value is the empty string — and only an *absent* key leaves the
title-parsed value in effect.  The fee follows the non-empty rule instead:
when no substitute is present, a non-empty stored fee wins, and an absent or
empty-string stored fee falls back to the artist base-fee lookup keyed by the
final performer name; a non-empty substitute forces the fee to "0". -/
theorem claim_C1_override_merge (event_id : String) (ev : EventBase)
    (concert_data : List (String × ConcertOverride))
    (artist_base : List (String × String)) (distances : List (String × ℚ)) :
    ((lookupOverride event_id concert_data).artista = none →
      (normalize_event event_id ev concert_data artist_base distances).artista
        = (parse_event_title ev.summary).artista)
    ∧ (∀ v, (lookupOverride event_id concert_data).artista = some v →
        (normalize_event event_id ev concert_data artist_base distances).artista = v)
    ∧ ((lookupOverride event_id concert_data).evento = none →
        (normalize_event event_id ev concert_data artist_base distances).evento
          = (parse_event_title ev.summary).evento)
    ∧ (∀ v, (lookupOverride event_id concert_data).evento = some v →
        (normalize_event event_id ev concert_data artist_base distances).evento = v)
    ∧ ((lookupOverride event_id concert_data).«local» = none →
        (normalize_event event_id ev concert_data artist_base distances).«local»
          = (parse_event_title ev.summary).«local»)
    ∧ (∀ v, (lookupOverride event_id concert_data).«local» = some v →
        (normalize_event event_id ev concert_data artist_base distances).«local» = v)
    ∧ ((lookupOverride event_id concert_data).substituto = none →
        (normalize_event event_id ev concert_data artist_base distances).substituto
          = (parse_event_title ev.summary).substituto)
    ∧ (∀ v, (lookupOverride event_id concert_data).substituto = some v →
        (normalize_event event_id ev concert_data artist_base distances).substituto = v)
    ∧ ((normalize_event event_id ev concert_data artist_base distances).substituto = "" →
        (lookupOverride event_id concert_data).cachet.getD "" ≠ "" →
        (normalize_event event_id ev concert_data artist_base distances).cachet
          = (lookupOverride event_id concert_data).cachet.getD "")
    ∧ ((normalize_event event_id ev concert_data artist_base distances).substituto = "" →
        (lookupOverride event_id concert_data).cachet.getD "" = "" →
        (normalize_event event_id ev concert_data artist_base distances).cachet
          = (List.lookup
              (normalize_event event_id ev concert_data artist_base distances).artista
              artist_base).getD "")
    ∧ ((normalize_event event_id ev concert_data artist_base distances).substituto ≠ "" →
        (normalize_event event_id ev concert_data artist_base distances).cachet = "0") := by
  have ha : (normalize_event event_id ev concert_data artist_base distances).artista
      = (lookupOverride event_id concert_data).artista.getD
          (parse_event_title ev.summary).artista := rfl
  have he : (normalize_event event_id ev concert_data artist_base distances).evento
      = (lookupOverride event_id concert_data).evento.getD
          (parse_event_title ev.summary).evento := rfl
  have hl : (normalize_event event_id ev concert_data artist_base distances).«local»
      = (lookupOverride event_id concert_data).«local».getD
          (parse_event_title ev.summary).«local» := rfl
  have hs : (normalize_event event_id ev concert_data artist_base distances).substituto
      = (lookupOverride event_id concert_data).substituto.getD
          (parse_event_title ev.summary).substituto := rfl
  have hcac : (normalize_event event_id ev concert_data artist_base distances).cachet
      = (if (lookupOverride event_id concert_data).substituto.getD
            (parse_event_title ev.summary).substituto ≠ "" then "0"
         else if (lookupOverride event_id concert_data).cachet.getD "" ≠ "" then
           (lookupOverride event_id concert_data).cachet.getD ""
         else (List.lookup ((lookupOverride event_id concert_data).artista.getD
           (parse_event_title ev.summary).artista) artist_base).getD "") := rfl
  refine ⟨?_, ?_, ?_, ?_, ?_, ?_, ?_, ?_, ?_, ?_, ?_⟩
  · intro h; rw [ha, h]; rfl
  · intro v h; rw [ha, h]; rfl
  · intro h; rw [he, h]; rfl
  · intro v h; rw [he, h]; rfl
  · intro h; rw [hl, h]; rfl
  · intro v h; rw [hl, h]; rfl
  · intro h; rw [hs, h]; rfl
  · intro v h; rw [hs, h]; rfl
  · intro hsub hoc
    rw [hcac, if_neg (fun hx => hx (hs.symm.trans hsub)), if_pos hoc]
  · intro hsub hoc
    rw [hcac, if_neg (fun hx => hx (hs.symm.trans hsub)), if_neg (fun hx => hx hoc), ← ha]
  · intro hsub
    rw [hcac, if_pos (fun hx => hsub (hs.trans hx))]

/-- C1 (witness): concrete instance exercising a present override, an
empty-string stored fee, and the artist base-fee fallback keyed by the final
(overridden) performer name. -/
theorem claim_C1_witness :
    (lookupOverride "w" [("w", { artista := some "X", cachet := some "" })]).artista = some "X"
    ∧ (normalize_event "w" ⟨"2024-05-01", "A | E, V"⟩
        [("w", { artista := some "X", cachet := some "" })] [("X", "500")] []).artista = "X"
    ∧ (normalize_event "w" ⟨"2024-05-01", "A | E, V"⟩
        [("w", { artista := some "X", cachet := some "" })] [("X", "500")] []).substituto = ""
    ∧ (lookupOverride "w" [("w", { artista := some "X", cachet := some "" })]).cachet.getD ""
      = ""
    ∧ (normalize_event "w" ⟨"2024-05-01", "A | E, V"⟩
        [("w", { artista := some "X", cachet := some "" })] [("X", "500")] []).cachet
      = (List.lookup (normalize_event "w" ⟨"2024-05-01", "A | E, V"⟩
          [("w", { artista := some "X", cachet := some "" })] [("X", "500")] []).artista
          [("X", "500")]).getD "" :=
  ⟨by decide,
    (claim_C1_override_merge "w" ⟨"2024-05-01", "A | E, V"⟩
      [("w", { artista := some "X", cachet := some "" })] [("X", "500")] []).2.1 "X" (by decide),
    by decide, by decide,
    (claim_C1_override_merge "w" ⟨"2024-05-01", "A | E, V"⟩
      [("w", { artista := some "X", cachet := some "" })] [("X", "500")]
      []).2.2.2.2.2.2.2.2.2.1 (by decide) (by decide)⟩

/-- C1 (counterexample): the claim as stated fails for an override record
whose stored value is the empty string.  With summary "A | E, V" and an
override storing `artista = ""`, the normalized performer is "" — the
empty override wins — whereas the claim requires the parsed value "A" to
stay in effect. -/
theorem claim_C1_counterexample :
    (parse_event_title C1_event.summary).artista = "A"
    ∧ (lookupOverride "e" C1_overrides).artista = some ""
    ∧ (normalize_event "e" C1_event C1_overrides [] []).artista = ""
    ∧ (normalize_event "e" C1_event C1_overrides [] []).artista
        ≠ (parse_event_title C1_event.summary).artista := by
  refine ⟨by decide, by decide, by decide, by decide⟩

/- ── C6: summaries without delimiters ────────────────────────────────────── -/

lemma splitFirst_eq_none {c : Char} {l : List Char} (h : c ∉ l) : splitFirst c l = none := by
  induction l with
  | nil => rfl
  | cons x xs ih =>
    unfold splitFirst
    rw [if_neg (fun hxc => h (List.mem_cons.mpr (Or.inl hxc.symm))),
      ih (fun hm => h (List.mem_cons_of_mem x hm))]
    rfl

/-- C6 (amended): on a summary containing none of the delimiters `'|'`, `','`
or the substring `"SUB"`, parsing never errors and returns empty event, venue
and substitute fields, while the performer field receives the whole stripped
summary (so it is empty exactly when the summary is blank). -/
theorem claim_C6_no_delimiters (s : String) (h1 : '|' ∉ s.toList) (h2 : ',' ∉ s.toList)
    (h3 : containsSUB s.toList = false) :
    parse_event_title s = ⟨(stripChars s.toList).asString, "", "", ""⟩ := by
  by_cases hs : s = ""
  · subst hs
    rfl
  · unfold parse_event_title
    rw [if_neg hs]
    dsimp only
    rw [splitFirst_eq_none h1]
    rfl

/-- C6 (witness): concrete delimiter-free summary. -/
theorem claim_C6_witness :
    ('|' ∉ "Hello there".toList)
    ∧ (',' ∉ "Hello there".toList)
    ∧ containsSUB "Hello there".toList = false
    ∧ parse_event_title "Hello there" = ⟨"Hello there", "", "", ""⟩ :=
  ⟨by decide, by decide, by decide,
    (claim_C6_no_delimiters "Hello there" (by decide) (by decide) (by decide)).trans
      (by decide)⟩

/-- C6 (counterexample): the claim as stated fails — a delimiter-free
non-empty summary yields a *non-empty* performer field (the whole summary),
not an empty one. -/
theorem claim_C6_counterexample :
    ('|' ∉ "Hello".toList)
    ∧ (',' ∉ "Hello".toList)
    ∧ containsSUB "Hello".toList = false
    ∧ (parse_event_title "Hello").artista = "Hello"
    ∧ (parse_event_title "Hello").artista ≠ "" := by
  refine ⟨by decide, by decide, by decide, by decide, by decide⟩
